import Mathlib

/-!
# Verification of the hotham rendering core

A shallow embedding, in Lean 4, of the skinning system and the renderer of the
`hotham` repository (`src/hotham/src/systems/skinning.rs`,
`src/hotham/src/renderer.rs`, `src/hotham/src/hotham_error.rs`), together with
theorems settling the specification's claims about them.

Machine floats (`f32`) are modelled as exact rationals `ℚ`; Vulkan/OpenXR
driver entry points are modelled as oracles recording the calls the code makes.
-/

set_option autoImplicit false

/-! ## 4x4 matrices

Embedding of `cgmath::Matrix4<f32>`: sixteen rational entries `aRC`
(row `R`, column `C`).  Multiplication is the usual row-by-column product;
`Mat4.invert` embeds `SquareMatrix::invert`, which returns `None` when the
determinant is zero and otherwise the adjugate divided by the determinant.
-/

structure Mat4 where
  a00 : ℚ
  a01 : ℚ
  a02 : ℚ
  a03 : ℚ
  a10 : ℚ
  a11 : ℚ
  a12 : ℚ
  a13 : ℚ
  a20 : ℚ
  a21 : ℚ
  a22 : ℚ
  a23 : ℚ
  a30 : ℚ
  a31 : ℚ
  a32 : ℚ
  a33 : ℚ
  deriving DecidableEq

def Mat4.mul (A B : Mat4) : Mat4 where
  a00 := A.a00 * B.a00 + A.a01 * B.a10 + A.a02 * B.a20 + A.a03 * B.a30
  a01 := A.a00 * B.a01 + A.a01 * B.a11 + A.a02 * B.a21 + A.a03 * B.a31
  a02 := A.a00 * B.a02 + A.a01 * B.a12 + A.a02 * B.a22 + A.a03 * B.a32
  a03 := A.a00 * B.a03 + A.a01 * B.a13 + A.a02 * B.a23 + A.a03 * B.a33
  a10 := A.a10 * B.a00 + A.a11 * B.a10 + A.a12 * B.a20 + A.a13 * B.a30
  a11 := A.a10 * B.a01 + A.a11 * B.a11 + A.a12 * B.a21 + A.a13 * B.a31
  a12 := A.a10 * B.a02 + A.a11 * B.a12 + A.a12 * B.a22 + A.a13 * B.a32
  a13 := A.a10 * B.a03 + A.a11 * B.a13 + A.a12 * B.a23 + A.a13 * B.a33
  a20 := A.a20 * B.a00 + A.a21 * B.a10 + A.a22 * B.a20 + A.a23 * B.a30
  a21 := A.a20 * B.a01 + A.a21 * B.a11 + A.a22 * B.a21 + A.a23 * B.a31
  a22 := A.a20 * B.a02 + A.a21 * B.a12 + A.a22 * B.a22 + A.a23 * B.a32
  a23 := A.a20 * B.a03 + A.a21 * B.a13 + A.a22 * B.a23 + A.a23 * B.a33
  a30 := A.a30 * B.a00 + A.a31 * B.a10 + A.a32 * B.a20 + A.a33 * B.a30
  a31 := A.a30 * B.a01 + A.a31 * B.a11 + A.a32 * B.a21 + A.a33 * B.a31
  a32 := A.a30 * B.a02 + A.a31 * B.a12 + A.a32 * B.a22 + A.a33 * B.a32
  a33 := A.a30 * B.a03 + A.a31 * B.a13 + A.a32 * B.a23 + A.a33 * B.a33

instance : Mul Mat4 := ⟨Mat4.mul⟩

theorem Mat4.mul_def (A B : Mat4) : A * B = Mat4.mul A B := rfl

/-- `Matrix4::identity()`. -/
def Mat4.identity : Mat4 :=
  ⟨1, 0, 0, 0, 0, 1, 0, 0, 0, 0, 1, 0, 0, 0, 0, 1⟩

/-- `Matrix4::from_translation(vec3(x, y, z))`. -/
def Mat4.translation (x y z : ℚ) : Mat4 :=
  ⟨1, 0, 0, x, 0, 1, 0, y, 0, 0, 1, z, 0, 0, 0, 1⟩

/-- Determinant of a 3x3 matrix given its nine entries in row-major order. -/
def det3 (m00 m01 m02 m10 m11 m12 m20 m21 m22 : ℚ) : ℚ :=
  m00 * (m11 * m22 - m12 * m21) - m01 * (m10 * m22 - m12 * m20)
    + m02 * (m10 * m21 - m11 * m20)

/-- `Matrix4::determinant`, by cofactor expansion along the first row. -/
def Mat4.det (m : Mat4) : ℚ :=
  m.a00 * det3 m.a11 m.a12 m.a13 m.a21 m.a22 m.a23 m.a31 m.a32 m.a33
    - m.a01 * det3 m.a10 m.a12 m.a13 m.a20 m.a22 m.a23 m.a30 m.a32 m.a33
    + m.a02 * det3 m.a10 m.a11 m.a13 m.a20 m.a21 m.a23 m.a30 m.a31 m.a33
    - m.a03 * det3 m.a10 m.a11 m.a12 m.a20 m.a21 m.a22 m.a30 m.a31 m.a32

/-- `SquareMatrix::invert` for `Matrix4`: `None` when the determinant is zero,
otherwise the adjugate (transposed cofactor matrix) divided by the
determinant.  Entry `(i, j)` of the result is `(-1)^(i+j)` times the minor
obtained by deleting row `j` and column `i`, divided by the determinant. -/
def Mat4.invert (m : Mat4) : Option Mat4 :=
  let d := m.det
  if d = 0 then none
  else some
    { a00 := det3 m.a11 m.a12 m.a13 m.a21 m.a22 m.a23 m.a31 m.a32 m.a33 / d
      a01 := -(det3 m.a01 m.a02 m.a03 m.a21 m.a22 m.a23 m.a31 m.a32 m.a33) / d
      a02 := det3 m.a01 m.a02 m.a03 m.a11 m.a12 m.a13 m.a31 m.a32 m.a33 / d
      a03 := -(det3 m.a01 m.a02 m.a03 m.a11 m.a12 m.a13 m.a21 m.a22 m.a23) / d
      a10 := -(det3 m.a10 m.a12 m.a13 m.a20 m.a22 m.a23 m.a30 m.a32 m.a33) / d
      a11 := det3 m.a00 m.a02 m.a03 m.a20 m.a22 m.a23 m.a30 m.a32 m.a33 / d
      a12 := -(det3 m.a00 m.a02 m.a03 m.a10 m.a12 m.a13 m.a30 m.a32 m.a33) / d
      a13 := det3 m.a00 m.a02 m.a03 m.a10 m.a12 m.a13 m.a20 m.a22 m.a23 / d
      a20 := det3 m.a10 m.a11 m.a13 m.a20 m.a21 m.a23 m.a30 m.a31 m.a33 / d
      a21 := -(det3 m.a00 m.a01 m.a03 m.a20 m.a21 m.a23 m.a30 m.a31 m.a33) / d
      a22 := det3 m.a00 m.a01 m.a03 m.a10 m.a11 m.a13 m.a30 m.a31 m.a33 / d
      a23 := -(det3 m.a00 m.a01 m.a03 m.a10 m.a11 m.a13 m.a20 m.a21 m.a23) / d
      a30 := -(det3 m.a10 m.a11 m.a12 m.a20 m.a21 m.a22 m.a30 m.a31 m.a32) / d
      a31 := det3 m.a00 m.a01 m.a02 m.a20 m.a21 m.a22 m.a30 m.a31 m.a32 / d
      a32 := -(det3 m.a00 m.a01 m.a02 m.a10 m.a11 m.a12 m.a30 m.a31 m.a32) / d
      a33 := det3 m.a00 m.a01 m.a02 m.a10 m.a11 m.a12 m.a20 m.a21 m.a22 / d }

example : Mat4.invert (Mat4.translation 1 2 3) =
    some (Mat4.translation (-1) (-2) (-3)) := by
  norm_num [Mat4.invert, Mat4.det, det3, Mat4.translation]

example : Mat4.translation 1 2 3 * Mat4.translation 4 5 6 =
    Mat4.translation 5 7 9 := by
  norm_num [Mat4.mul_def, Mat4.mul, Mat4.translation]

example : Mat4.invert ⟨1, 2, 0, 0, 3, 4, 0, 0, 0, 0, 1, 0, 0, 0, 0, 1⟩ =
    some ⟨-2, 1, 0, 0, 3/2, -1/2, 0, 0, 0, 0, 1, 0, 0, 0, 0, 1⟩ := by
  norm_num [Mat4.invert, Mat4.det, det3]

/-- Products of translations translate by the sum (used to evaluate the
concrete skinning scenarios without raw rational arithmetic). -/
theorem Mat4.translation_mul (a b c x y z : ℚ) :
    Mat4.translation a b c * Mat4.translation x y z =
      Mat4.translation (a + x) (b + y) (c + z) := by
  simp [Mat4.mul_def, Mat4.mul, Mat4.translation, add_comm]

/-- A translation matrix is invertible, with inverse the opposite translation. -/
theorem Mat4.invert_translation (x y z : ℚ) :
    Mat4.invert (Mat4.translation x y z) =
      some (Mat4.translation (-x) (-y) (-z)) := by
  norm_num [Mat4.invert, Mat4.det, det3, Mat4.translation]

theorem Mat4.identity_eq_translation_zero :
    Mat4.identity = Mat4.translation 0 0 0 := rfl

/-- Two translations are equal iff they translate by the same vector. -/
theorem Mat4.translation_inj (a b c x y z : ℚ) :
    Mat4.translation a b c = Mat4.translation x y z ↔ a = x ∧ b = y ∧ c = z := by
  constructor
  · intro h
    refine ⟨congrArg Mat4.a03 h, congrArg Mat4.a13 h, congrArg Mat4.a23 h⟩
  · rintro ⟨rfl, rfl, rfl⟩
    rfl

/-- `translation * M` keeps the upper-left 3x3 block of `M`; in particular,
multiplying translations never leaves the translation family needed below. -/
theorem Mat4.translation_mul_identity (x y z : ℚ) :
    Mat4.translation x y z * Mat4.identity = Mat4.translation x y z := by
  simp [Mat4.identity_eq_translation_zero, Mat4.translation_mul]

/-! ## The entity-component world of the skinning system

Embedding of the `legion` world as seen by
`src/hotham/src/systems/skinning.rs`: each entity carries an identity and
optionally a `TransformMatrix`, a `Joint` and a `Skin` component.  Queries
visit entities in world order (the order of the list).
-/

/-- `legion::Entity`, the entity identity. -/
abbrev Entity := Nat

/-- `components::Joint`: a reference to the skeleton-root entity plus the
joint's inverse bind matrix. -/
structure Joint where
  skeleton_root : Entity
  inverse_bind_matrix : Mat4
  deriving DecidableEq

/-- `components::Skin`: the host-side mirror of the joint matrices and the
handle of the GPU buffer they are uploaded to.  (The buffer type itself lives
outside `src/`; its `update` contract is modelled below from the spec.) -/
structure Skin where
  joint_matrices : List Mat4
  buffer : Nat
  deriving DecidableEq

/-- One entity of the world: its identity plus its optional
`TransformMatrix`, `Joint` and `Skin` components. -/
structure EntityRec where
  id : Entity
  transform : Option Mat4
  joint : Option Joint
  skin : Option Skin
  deriving DecidableEq

/-- The world, in query-traversal order. -/
abbrev World := List EntityRec

/-- Device memory reachable through buffer handles: each skin buffer's
current contents. -/
def GpuMemory := Nat → List Mat4

/-- `world.entry_ref(entity)`: look an entity up by identity. -/
def World.entryRef (w : World) (e : Entity) : Option EntityRec :=
  w.find? (fun r => r.id = e)

/-- Modelled from the spec: `Buffer::update` (from `buffer.rs`, which is not
part of the sources) "overwrites the buffer contents in place"; the device
memory behind handle `h` now holds exactly the uploaded sequence. -/
def updateBuffer (mem : GpuMemory) (h : Nat) (ms : List Mat4) : GpuMemory :=
  fun h' => if h' = h then ms else mem h'

/-- The accumulator `joint_matrices: HashMap<Entity, Vec<Matrix4>>`:
`none` for keys never inserted. -/
def JointAcc := Entity → Option (List Mat4)

/-- The body of the first skinning query, for one entity bearing both a
`TransformMatrix` and a `Joint` (other entities are not visited): resolve the
skeleton root via `world.entry_ref` (`unwrap`), read its `TransformMatrix`
(`unwrap`), invert it (`unwrap`), multiply
`inverse_transform * transform_matrix * inverse_bind_matrix` and push the
result onto the accumulator entry of the skeleton root (`entry(..).or_default`).
`none` models a panic of one of the `unwrap`s, which aborts the system. -/
def jointStep (w : World) (acc : JointAcc) (e : EntityRec) : Option JointAcc :=
  match e.transform, e.joint with
  | some transform_matrix, some joint =>
    match (w.entryRef joint.skeleton_root).bind (fun root => root.transform) with
    | none => none
    | some root_transform =>
      match Mat4.invert root_transform with
      | none => none
      | some inverse_transform =>
        let joint_matrix :=
          inverse_transform * transform_matrix * joint.inverse_bind_matrix
        some (fun r =>
          if r = joint.skeleton_root then
            some ((acc joint.skeleton_root).getD [] ++ [joint_matrix])
          else acc r)
  | _, _ => some acc

/-- First pass of `skinning`: fold `jointStep` over the remaining entities. -/
def skinningPass1Aux (w : World) : JointAcc → List EntityRec → Option JointAcc
  | acc, [] => some acc
  | acc, e :: rest =>
    match jointStep w acc e with
    | none => none
    | some acc' => skinningPass1Aux w acc' rest

/-- First pass of `skinning`: the `<(&TransformMatrix, &Joint)>::query()`
loop, starting from the empty accumulator. -/
def skinningPass1 (w : World) : Option JointAcc :=
  skinningPass1Aux w (fun _ => none) w

/-- Second pass of `skinning`: the `<&Skin>::query()` loop.  For every entity
bearing a `Skin`, look its identity up in the accumulator
(`joint_matrices.get(&entity).unwrap()`; `none` models the panic when no
joint referenced this entity) and upload the accumulated matrices into the
skin's buffer. -/
def skinningPass2 (acc : JointAcc) : GpuMemory → List EntityRec → Option GpuMemory
  | mem, [] => some mem
  | mem, e :: rest =>
    match e.skin with
    | none => skinningPass2 acc mem rest
    | some sk =>
      match acc e.id with
      | none => none
      | some ms => skinningPass2 acc (updateBuffer mem sk.buffer ms) rest

/-- The `skinning` system (`systems/skinning.rs`): run the joint pass, then
upload each skin's accumulated matrices.  `none` models a panic (any of the
`unwrap`s firing), which aborts the whole tick. -/
def skinning (w : World) (mem : GpuMemory) : Option GpuMemory :=
  match skinningPass1 w with
  | none => none
  | some acc => skinningPass2 acc mem w

/-! ## Specification-side definitions for the skinning system

`specJointMatrix` follows the spec's words: for an entity bearing a
`TransformMatrix` and a `Joint`,
`skinning_matrix = inverse(skeleton_root.TransformMatrix) * this_entity.TransformMatrix * this_joint.inverse_bind_matrix`,
with the multiplications in exactly that order.  It is the refinement target
the accumulator of `skinning` is compared against.
-/

/-- The spec's formula for one joint's skinning matrix (`none` when the
referenced skeleton root cannot be resolved, lacks a transform, or its
transform is singular). -/
def specJointMatrix (w : World) (tm : Mat4) (j : Joint) : Option Mat4 :=
  ((w.entryRef j.skeleton_root).bind (fun root => root.transform)).bind
    (fun rt => (Mat4.invert rt).map
      (fun inv => inv * tm * j.inverse_bind_matrix))

/-- The spec-side ordered sequence of skinning matrices keyed by skeleton
root `r`: the spec formula applied to every entity of `es` bearing both a
`TransformMatrix` and a `Joint` referencing `r`, in traversal order. -/
def skinningMatricesSpec (w : World) (es : List EntityRec) (r : Entity) : List Mat4 :=
  es.filterMap (fun e =>
    match e.transform, e.joint with
    | some tm, some j =>
      if j.skeleton_root = r then specJointMatrix w tm j else none
    | _, _ => none)

/-- Does `e` bear both a `TransformMatrix` and a `Joint` whose
`skeleton_root` is `r`?  (These are exactly the entities the first skinning
query visits for root `r`.) -/
def isJointOf (r : Entity) (e : EntityRec) : Bool :=
  e.transform.isSome &&
    (match e.joint with
     | some j => j.skeleton_root == r
     | none => false)

/-- Number of entities bearing both a `TransformMatrix` and a `Joint` whose
`skeleton_root` is `r`. -/
def jointCount (es : List EntityRec) (r : Entity) : Nat :=
  (es.filter (isJointOf r)).length

/-- Number of entities bearing a `Joint` whose `skeleton_root` is `r`,
whether or not they also bear a `TransformMatrix` (the count the claim
speaks about). -/
def claimJointCount (es : List EntityRec) (r : Entity) : Nat :=
  (es.filter (fun e =>
    match e.joint with
    | some j => j.skeleton_root == r
    | none => false)).length

/-- `true` iff `e` bears both a `TransformMatrix` and a `Joint` but the spec
formula for it is undefined — exactly the condition making the first query's
`unwrap`s panic. -/
def jointFails (w : World) (e : EntityRec) : Bool :=
  match e.transform, e.joint with
  | some _tm, some j =>
    match e.transform with
    | some tm => (specJointMatrix w tm j).isNone
    | none => false
  | _, _ => false

/-- `true` iff `e` bears a `Skin` but the joint pass accumulated no matrices
for its identity — exactly the condition making
`joint_matrices.get(&entity).unwrap()` panic. -/
def zeroJointSkin (w : World) (e : EntityRec) : Bool :=
  e.skin.isSome &&
    (match skinningPass1 w with
     | some acc => (acc e.id).isNone
     | none => false)

/-- The buffer handles of all skin entities, in traversal order. -/
def skinHandles (es : List EntityRec) : List Nat :=
  es.filterMap (fun e => e.skin.map (fun sk => sk.buffer))

/-! ### Lemmas about the joint pass -/

/-- What one fold step adds: on success the accumulator gains, at the
joint's skeleton root, exactly the spec matrix of the visited entity. -/
theorem skinningPass1Aux_spec (w : World) :
    ∀ (es : List EntityRec) (acc acc' : JointAcc),
      skinningPass1Aux w acc es = some acc' →
      ∀ r, (acc' r).getD [] = (acc r).getD [] ++ skinningMatricesSpec w es r := by
  intro es
  induction es with
  | nil =>
    intro acc acc' h r
    simp only [skinningPass1Aux, Option.some.injEq] at h
    subst h
    simp [skinningMatricesSpec]
  | cons e rest ih =>
    intro acc acc' h r
    cases hstep : jointStep w acc e with
    | none => simp [skinningPass1Aux, hstep] at h
    | some acc2 =>
      simp only [skinningPass1Aux, hstep] at h
      have hrest := ih acc2 acc' h r
      cases htm : e.transform with
      | none =>
        simp only [jointStep, htm, Option.some.injEq] at hstep
        subst hstep
        simpa [skinningMatricesSpec, htm] using hrest
      | some tm =>
        cases hj : e.joint with
        | none =>
          simp only [jointStep, htm, hj, Option.some.injEq] at hstep
          subst hstep
          simpa [skinningMatricesSpec, htm, hj] using hrest
        | some j =>
          cases hroot : (w.entryRef j.skeleton_root).bind (fun root => root.transform) with
          | none => simp [jointStep, htm, hj, hroot] at hstep
          | some rt =>
            cases hinv : Mat4.invert rt with
            | none => simp [jointStep, htm, hj, hroot, hinv] at hstep
            | some inv =>
              simp only [jointStep, htm, hj, hroot, hinv, Option.some.injEq] at hstep
              subst hstep
              have hspec : specJointMatrix w tm j =
                  some (inv * tm * j.inverse_bind_matrix) := by
                simp [specJointMatrix, hroot, hinv]
              by_cases hr : r = j.skeleton_root
              · subst hr
                rw [hrest]
                simp [skinningMatricesSpec, htm, hj, hspec]
              · rw [hrest]
                have hr' : ¬ (j.skeleton_root = r) := fun hc => hr hc.symm
                simp [skinningMatricesSpec, htm, hj, hr, hr']

/-- If the joint pass completed, none of the visited entities had a failing
skeleton-root resolution (no `unwrap` fired). -/
theorem skinningPass1Aux_ok (w : World) :
    ∀ (es : List EntityRec) (acc acc' : JointAcc),
      skinningPass1Aux w acc es = some acc' →
      ∀ e ∈ es, jointFails w e = false := by
  intro es
  induction es with
  | nil => intro acc acc' _ e he; cases he
  | cons x rest ih =>
    intro acc acc' h e he
    cases hstep : jointStep w acc x with
    | none => simp [skinningPass1Aux, hstep] at h
    | some acc2 =>
      simp only [skinningPass1Aux, hstep] at h
      rcases List.mem_cons.mp he with rfl | hmem
      · cases htm : e.transform with
        | none => simp [jointFails, htm]
        | some tm =>
          cases hj : e.joint with
          | none => simp [jointFails, htm, hj]
          | some j =>
            cases hroot : (w.entryRef j.skeleton_root).bind (fun root => root.transform) with
            | none => simp [jointStep, htm, hj, hroot] at hstep
            | some rt =>
              cases hinv : Mat4.invert rt with
              | none => simp [jointStep, htm, hj, hroot, hinv] at hstep
              | some inv =>
                simp [jointFails, htm, hj, specJointMatrix, hroot, hinv]
      · exact ih acc2 acc' h e hmem

/-- For entities whose spec matrix is defined, the spec sequence for root `r`
has exactly one entry per entity bearing both components and referencing
`r`. -/
theorem skinningMatricesSpec_length (w : World) :
    ∀ (es : List EntityRec),
      (∀ e ∈ es, jointFails w e = false) →
      ∀ r, (skinningMatricesSpec w es r).length = jointCount es r := by
  intro es
  induction es with
  | nil => intro _ r; simp [skinningMatricesSpec, jointCount]
  | cons e rest ih =>
    intro hok r
    have hrest := ih (fun x hx => hok x (List.mem_cons_of_mem e hx)) r
    cases htm : e.transform with
    | none => simpa [skinningMatricesSpec, jointCount, isJointOf, htm,
        List.filter_cons] using hrest
    | some tm =>
      cases hj : e.joint with
      | none => simpa [skinningMatricesSpec, jointCount, isJointOf, htm, hj,
          List.filter_cons] using hrest
      | some j =>
        by_cases hr : j.skeleton_root = r
        · have hfail := hok e (List.mem_cons_self e rest)
          have hsome : ∃ m, specJointMatrix w tm j = some m := by
            cases hs : specJointMatrix w tm j with
            | none => simp [jointFails, htm, hj, hs] at hfail
            | some m => exact ⟨m, rfl⟩
          obtain ⟨m, hm⟩ := hsome
          simp only [skinningMatricesSpec, jointCount, isJointOf,
            List.filterMap_cons, List.filter_cons, htm, hj, hr, hm] at hrest ⊢
          simp_all [jointCount, skinningMatricesSpec]
        · simp only [skinningMatricesSpec, jointCount, isJointOf,
            List.filterMap_cons, List.filter_cons, htm, hj] at hrest ⊢
          simp_all [jointCount, skinningMatricesSpec]

/-- `skinHandles` on a cons, split by whether the head bears a skin. -/
theorem skinHandles_cons (e : EntityRec) (rest : List EntityRec) :
    skinHandles (e :: rest) =
      (match e.skin with
       | some sk => sk.buffer :: skinHandles rest
       | none => skinHandles rest) := by
  cases h : e.skin <;> simp [skinHandles, List.filterMap_cons, h]

/-! ### Lemmas about the upload pass -/

/-- The upload pass never touches a handle owned by no skin it visits. -/
theorem skinningPass2_preserve (acc : JointAcc) :
    ∀ (es : List EntityRec) (mem mem' : GpuMemory),
      skinningPass2 acc mem es = some mem' →
      ∀ h, h ∉ skinHandles es → mem' h = mem h := by
  intro es
  induction es with
  | nil =>
    intro mem mem' hp h _
    simp only [skinningPass2, Option.some.injEq] at hp
    subst hp; rfl
  | cons x rest ih =>
    intro mem mem' hp h hmem
    rw [skinHandles_cons] at hmem
    cases hsk : x.skin with
    | none =>
      simp only [skinningPass2, hsk] at hp
      rw [hsk] at hmem
      exact ih mem mem' hp h hmem
    | some sk =>
      cases hacc : acc x.id with
      | none => simp [skinningPass2, hsk, hacc] at hp
      | some ms =>
        simp only [skinningPass2, hsk, hacc] at hp
        rw [hsk] at hmem
        simp only [List.mem_cons, not_or] at hmem
        obtain ⟨hne, hrest⟩ := hmem
        rw [ih _ mem' hp h hrest]
        simp [updateBuffer, hne]

/-- If the upload pass completed, every skin it visited had accumulated
matrices (no `unwrap` fired). -/
theorem skinningPass2_ok (acc : JointAcc) :
    ∀ (es : List EntityRec) (mem mem' : GpuMemory),
      skinningPass2 acc mem es = some mem' →
      ∀ e ∈ es, e.skin.isSome = true → (acc e.id).isSome = true := by
  intro es
  induction es with
  | nil => intro mem mem' _ e he; cases he
  | cons x rest ih =>
    intro mem mem' hp e he hskin
    cases hsk : x.skin with
    | none =>
      simp only [skinningPass2, hsk] at hp
      rcases List.mem_cons.mp he with rfl | hmem
      · rw [hsk] at hskin; cases hskin
      · exact ih mem mem' hp e hmem hskin
    | some sk =>
      cases hacc : acc x.id with
      | none => simp [skinningPass2, hsk, hacc] at hp
      | some ms =>
        simp only [skinningPass2, hsk, hacc] at hp
        rcases List.mem_cons.mp he with rfl | hmem
        · simp [hacc]
        · exact ih _ mem' hp e hmem hskin

/-- A visited skin's handle ends up holding exactly its entity's accumulated
matrices, provided its handle is not shared with another visited skin. -/
theorem skinningPass2_lookup (acc : JointAcc) :
    ∀ (es : List EntityRec) (mem mem' : GpuMemory) (e : EntityRec) (sk : Skin),
      skinningPass2 acc mem es = some mem' →
      e ∈ es → e.skin = some sk →
      (skinHandles es).count sk.buffer = 1 →
      mem' sk.buffer = (acc e.id).getD [] := by
  intro es
  induction es with
  | nil => intro mem mem' e sk _ he; cases he
  | cons x rest ih =>
    intro mem mem' e sk hp he hsk hcount
    rw [skinHandles_cons] at hcount
    cases hx : x.skin with
    | none =>
      simp only [skinningPass2, hx] at hp
      rw [hx] at hcount
      rcases List.mem_cons.mp he with heq | hmem
      · rw [heq, hx] at hsk; cases hsk
      · exact ih mem mem' e sk hp hmem hsk hcount
    | some skx =>
      cases hacc : acc x.id with
      | none => simp [skinningPass2, hx, hacc] at hp
      | some ms =>
        simp only [skinningPass2, hx, hacc] at hp
        rw [hx] at hcount
        rcases List.mem_cons.mp he with heq | hmem
        · have hskx : skx = sk := by
            rw [heq, hx] at hsk
            exact Option.some_inj.mp hsk
          have hzero : (skinHandles rest).count sk.buffer = 0 := by
            rw [List.count_cons, hskx] at hcount
            simp at hcount
            omega
          have hnot : sk.buffer ∉ skinHandles rest :=
            List.count_eq_zero.mp hzero
          rw [skinningPass2_preserve acc rest _ mem' hp sk.buffer hnot]
          rw [heq]
          simp [updateBuffer, hskx, hacc]
        · have hin : sk.buffer ∈ skinHandles rest := by
            simp only [skinHandles, List.mem_filterMap]
            exact ⟨e, hmem, by simp [hsk]⟩
          have hone : (skinHandles rest).count sk.buffer ≠ 0 := by
            intro h0
            exact absurd hin (List.count_eq_zero.mp h0)
          rw [List.count_cons] at hcount
          by_cases hc : skx.buffer = sk.buffer
          · simp [hc] at hcount; omega
          · simp [hc] at hcount
            exact ih _ mem' e sk hp hmem hsk hcount

/-! ## Evaluation helpers for concrete worlds -/

theorem Mat4.invert_identity : Mat4.invert Mat4.identity = some Mat4.identity := by
  rw [Mat4.identity_eq_translation_zero, Mat4.invert_translation]
  norm_num

theorem Mat4.identity_mul (m : Mat4) : Mat4.identity * m = m := by
  cases m
  simp [Mat4.mul_def, Mat4.mul, Mat4.identity]

theorem Mat4.mul_identity (m : Mat4) : m * Mat4.identity = m := by
  cases m
  simp [Mat4.mul_def, Mat4.mul, Mat4.identity]

/-- All-empty GPU memory, the starting state of the concrete scenarios. -/
def memZero : GpuMemory := fun _ => []

/-! ## Claim C1 -/

/-- Claim C1 (confirmed): for every entity bearing both a `TransformMatrix`
and a `Joint`, the joint pass of the skinning system computes that joint's
skinning matrix as
`inverse(skeleton_root.TransformMatrix) * this_entity.TransformMatrix * this_joint.inverse_bind_matrix`
with the multiplications in exactly that order: whenever the pass completes,
the accumulated sequence for every skeleton root `r` is exactly the sequence
of spec-formula matrices (`skinningMatricesSpec`) of the entities bearing
both components and referencing `r`, in traversal order. -/
theorem C1_skinning_matrix_formula (w : World) (r : Entity)
    (h : (skinningPass1 w).isSome = true) :
    (skinningPass1 w).map (fun acc => (acc r).getD []) =
      some (skinningMatricesSpec w w r) := by
  obtain ⟨acc, hacc⟩ := Option.isSome_iff_exists.mp h
  have hacc' : skinningPass1Aux w (fun _ => none) w = some acc := hacc
  have hspec := skinningPass1Aux_spec w w (fun _ => none) acc hacc' r
  rw [hacc]
  simpa using hspec

def c1Root : EntityRec := ⟨0, some (Mat4.translation 1 2 3), none, none⟩

def c1Child : EntityRec :=
  ⟨1, some (Mat4.translation 1 0 0), some ⟨0, Mat4.identity⟩, none⟩

def c1World : World := [c1Root, c1Child]

/-- Witness for C1 on a concrete two-entity world. -/
theorem C1_skinning_matrix_formula_witness :
    ((skinningPass1 c1World).isSome = true) ∧
    (skinningPass1 c1World).map (fun acc => (acc 0).getD []) =
      some (skinningMatricesSpec c1World c1World 0) := by
  have h : (skinningPass1 c1World).isSome = true := by
    simp [skinningPass1, skinningPass1Aux, jointStep, c1World, c1Root, c1Child,
      World.entryRef, List.find?, Mat4.invert_translation]
  exact ⟨h, C1_skinning_matrix_formula c1World 0 h⟩

/-! ## Claim C2 -/

def c2Root : EntityRec := ⟨0, some Mat4.identity, none, some ⟨[], 3⟩⟩

def c2Joint : EntityRec :=
  ⟨1, some (Mat4.translation 1 0 0), some ⟨0, Mat4.identity⟩, none⟩

def c2Orphan : EntityRec := ⟨2, some Mat4.identity, none, some ⟨[], 4⟩⟩

def c2World : World := [c2Root, c2Joint, c2Orphan]

/-- Counterexample to claim C2: in a world where skin entity `c2Root` has a
joint and would be processed fine, and skin entity `c2Orphan` has zero
joints referencing it, the claim requires a recoverable per-entity error —
skin 4 skipped, the tick completing with the remaining skins processed,
i.e. a `some` result.  Instead the `unwrap` on the accumulator fires and the
whole system panics: `skinning` returns `none`, aborting the whole tick with
no update at all. -/
theorem C2_counterexample : skinning c2World memZero = none := by
  simp [skinning, skinningPass1, skinningPass1Aux, skinningPass2, jointStep,
    c2World, c2Root, c2Joint, c2Orphan, World.entryRef, List.find?,
    Mat4.invert_identity, updateBuffer, memZero]

/-- Claim C2 as amended: when a joint's skeleton-root resolution fails (the
referenced entity is missing, lacks a `TransformMatrix`, or its transform is
singular), or a skin entity has zero accumulated joints, the skinning system
panics and the whole tick aborts: `skinning` produces no updated GPU state at
all, and no other skin is processed. -/
theorem C2_panic_aborts_tick (w : World) (mem : GpuMemory)
    (h : (∃ e ∈ w, jointFails w e = true) ∨
         (∃ e ∈ w, zeroJointSkin w e = true)) :
    skinning w mem = none := by
  rcases h with ⟨e, he, hf⟩ | ⟨e, he, hz⟩
  · cases hp : skinningPass1 w with
    | none => simp [skinning, hp]
    | some acc =>
      have hok := skinningPass1Aux_ok w w (fun _ => none) acc hp e he
      rw [hok] at hf
      cases hf
  · simp only [zeroJointSkin, Bool.and_eq_true] at hz
    obtain ⟨hskin, hmatch⟩ := hz
    cases hp : skinningPass1 w with
    | none => simp [skinning, hp]
    | some acc =>
      rw [hp] at hmatch
      simp only [Option.isNone_iff_eq_none] at hmatch
      simp only [skinning, hp]
      cases hp2 : skinningPass2 acc mem w with
      | none => rfl
      | some mem' =>
        have hsome := skinningPass2_ok acc w mem mem' hp2 e he hskin
        rw [hmatch] at hsome
        cases hsome

def c2wSkin : EntityRec := ⟨0, none, none, some ⟨[], 9⟩⟩

def c2wWorld : World := [c2wSkin]

/-- Witness for the amended C2: a world with one skin and zero joints makes
the whole skinning tick abort. -/
theorem C2_panic_aborts_tick_witness :
    ((∃ e ∈ c2wWorld, jointFails c2wWorld e = true) ∨
       (∃ e ∈ c2wWorld, zeroJointSkin c2wWorld e = true)) ∧
    skinning c2wWorld memZero = none := by
  have h : (∃ e ∈ c2wWorld, jointFails c2wWorld e = true) ∨
      (∃ e ∈ c2wWorld, zeroJointSkin c2wWorld e = true) := by
    refine Or.inr ⟨c2wSkin, by simp [c2wWorld], ?_⟩
    simp [zeroJointSkin, c2wSkin, skinningPass1, skinningPass1Aux, jointStep,
      c2wWorld]
  exact ⟨h, C2_panic_aborts_tick c2wWorld memZero h⟩

/-! ## Claim C3 -/

def c3Root : EntityRec := ⟨0, some Mat4.identity, none, some ⟨[], 5⟩⟩

def c3Joint : EntityRec :=
  ⟨1, some (Mat4.translation 1 0 0), some ⟨0, Mat4.identity⟩, none⟩

def c3Bare : EntityRec := ⟨2, none, some ⟨0, Mat4.identity⟩, none⟩

def c3World : World := [c3Root, c3Joint, c3Bare]

/-- Counterexample to claim C3 as stated: entity `c3Bare` bears a `Joint`
whose `skeleton_root` is the skin entity but bears no `TransformMatrix`, so
the first query never visits it.  The skin's uploaded sequence has length 1,
while the number of entities whose `Joint.skeleton_root` equals the skin
entity's identity is 2. -/
theorem C3_counterexample :
    (skinning c3World memZero).map (fun m => (m 5).length) = some 1 ∧
    claimJointCount c3World 0 = 2 := by
  constructor
  · simp [skinning, skinningPass1, skinningPass1Aux, skinningPass2, jointStep,
      c3World, c3Root, c3Joint, c3Bare, World.entryRef, List.find?,
      Mat4.invert_identity, updateBuffer, memZero]
  · rfl

/-- Claim C3 as amended: after a completed skinning pass, every skin entity's
buffer (its handle not being shared with another skin) holds exactly one
matrix per entity bearing both a `TransformMatrix` and a `Joint` whose
`skeleton_root` equals the skin entity's identity; entities bearing a `Joint`
but no `TransformMatrix` are not counted.  In particular a skin referenced by
exactly two such joints receives exactly two matrices. -/
theorem C3_upload_length (w : World) (mem : GpuMemory) (e : EntityRec) (sk : Skin)
    (hs : (skinning w mem).isSome = true)
    (he : e ∈ w) (hsk : e.skin = some sk)
    (hu : (skinHandles w).count sk.buffer = 1) :
    (skinning w mem).map (fun m => (m sk.buffer).length) =
      some (jointCount w e.id) := by
  obtain ⟨mem', hmem'⟩ := Option.isSome_iff_exists.mp hs
  cases hp : skinningPass1 w with
  | none => rw [skinning, hp] at hmem'; cases hmem'
  | some acc =>
    have hp2 : skinningPass2 acc mem w = some mem' := by
      rw [skinning, hp] at hmem'
      exact hmem'
    have hlook := skinningPass2_lookup acc w mem mem' e sk hp2 he hsk hu
    have hacc' : skinningPass1Aux w (fun _ => none) w = some acc := hp
    have hspec := skinningPass1Aux_spec w w (fun _ => none) acc hacc' e.id
    have hok := skinningPass1Aux_ok w w (fun _ => none) acc hacc'
    have hlen := skinningMatricesSpec_length w w hok e.id
    rw [hmem']
    simp only [Option.map_some']
    rw [hlook, hspec]
    simpa using hlen

def c3wRoot : EntityRec := ⟨0, some Mat4.identity, none, some ⟨[], 7⟩⟩

def c3wJoint1 : EntityRec :=
  ⟨1, some (Mat4.translation 1 0 0), some ⟨0, Mat4.identity⟩, none⟩

def c3wJoint2 : EntityRec :=
  ⟨2, some (Mat4.translation 2 0 0), some ⟨0, Mat4.identity⟩, none⟩

def c3wWorld : World := [c3wRoot, c3wJoint1, c3wJoint2]

/-- Witness for the amended C3: a skin referenced by exactly two joints
receives exactly two matrices. -/
theorem C3_upload_length_witness :
    ((skinning c3wWorld memZero).isSome = true) ∧
    (skinning c3wWorld memZero).map (fun m => (m 7).length) =
      some (jointCount c3wWorld 0) ∧
    jointCount c3wWorld 0 = 2 := by
  have hs : (skinning c3wWorld memZero).isSome = true := by
    simp [skinning, skinningPass1, skinningPass1Aux, skinningPass2, jointStep,
      c3wWorld, c3wRoot, c3wJoint1, c3wJoint2, World.entryRef, List.find?,
      Mat4.invert_identity, updateBuffer, memZero]
  refine ⟨hs, ?_, by rfl⟩
  exact C3_upload_length c3wWorld memZero c3wRoot ⟨[], 7⟩ hs
    (by simp [c3wWorld]) rfl (by rfl)

/-! ## Claim C4 -/

def c4Root : EntityRec := ⟨0, some (Mat4.translation 1 2 3), none, none⟩

def c4Child : EntityRec :=
  ⟨1, some (Mat4.translation 1 0 0), some ⟨0, Mat4.identity⟩, none⟩

def c4Grandchild : EntityRec :=
  ⟨2, some (Mat4.translation 2 0 0), some ⟨0, Mat4.identity⟩, none⟩

def c4World : World := [c4Root, c4Child, c4Grandchild]

/-- Claim C4 (confirmed): the three-level hierarchy whose skeleton root is
translated by `(1,2,3)`, whose child joint's `TransformMatrix` is translated
by `(1,0,0)`, and whose grandchild joint is additionally translated by
`(1,0,0)` — so its world-space `TransformMatrix` is the translation by
`(2,0,0)` — with identity inverse-bind matrices throughout.  The joint pass
computes the skinning matrices `translation (0,-2,-3)` for the child and
`translation (1,-2,-3)` for the grandchild: both are non-identity and they
differ from each other. -/
theorem C4_hierarchy_skinning_matrices :
    (skinningPass1 c4World).map (fun acc => acc 0) =
      some (some [Mat4.translation 0 (-2) (-3), Mat4.translation 1 (-2) (-3)]) ∧
    Mat4.translation 0 (-2) (-3) ≠ Mat4.identity ∧
    Mat4.translation 1 (-2) (-3) ≠ Mat4.identity ∧
    Mat4.translation 0 (-2) (-3) ≠ Mat4.translation 1 (-2) (-3) := by
  refine ⟨?_, ?_, ?_, ?_⟩
  · norm_num [skinningPass1, skinningPass1Aux, jointStep, c4World, c4Root,
      c4Child, c4Grandchild, World.entryRef, List.find?,
      Mat4.invert_translation, Mat4.translation_mul, Mat4.mul_identity]
  · rw [Mat4.identity_eq_translation_zero, Ne, Mat4.translation_inj]
    norm_num
  · rw [Mat4.identity_eq_translation_zero, Ne, Mat4.translation_inj]
    norm_num
  · rw [Ne, Mat4.translation_inj]
    norm_num

/-! ## The renderer

Embedding of `src/hotham/src/renderer.rs`.  Vulkan objects are opaque `Nat`
handles; the `ash` device entry points are modelled as an oracle deciding
which fallible calls succeed, while the calls the code issues are recorded in
a trace of `DeviceCall`s.  `f32` clear values are exact rationals.
-/

/-- Contents of one vertex (`Vertex`): opaque to the renderer, which only
ever stores and counts them. -/
abbrev VertexData := Nat

/-- `vk::IndexType`. -/
inductive IndexType where
  | uint16
  | uint32
  deriving DecidableEq

/-- One recorded device call of `Renderer::draw` / `Renderer::prepare_frame`,
with the arguments the source passes. -/
inductive DeviceCall where
  | beginCommandBuffer (cb : Nat) (oneTimeSubmit : Bool)
  | cmdBeginRenderPass (cb renderPass framebuffer : Nat)
      (renderArea : Nat × Nat) (clearColor : ℚ × ℚ × ℚ × ℚ)
      (clearDepth : ℚ) (clearStencil : Nat)
  | cmdBindPipeline (cb pipeline : Nat)
  | cmdBindVertexBuffers (cb firstBinding : Nat) (buffers offsets : List Nat)
  | cmdBindIndexBuffer (cb buffer offset : Nat) (ty : IndexType)
  | cmdDrawIndexed (cb indexCount instanceCount firstIndex : Nat)
      (vertexOffset : Int) (firstInstance : Nat)
  | cmdEndRenderPass (cb : Nat)
  | endCommandBuffer (cb : Nat)
  | resetFences (fences : List Nat)
  | queueSubmit (queue : Nat) (cbs : List Nat) (fence : Nat)
  | waitForFences (fences : List Nat) (waitAll : Bool) (timeout : Nat)
  deriving DecidableEq

/-- The error paths out of `Renderer::draw` (each `?` and the frame-slice
indexing panic). -/
inductive DrawError where
  | indexOutOfBounds
  | beginFailed
  | endFailed
  | resetFailed
  | submitFailed
  | waitFailed
  deriving DecidableEq

/-- Which of the fallible device calls of one `draw` succeed. -/
structure DrawOracle where
  beginCmd : Bool
  endCmd : Bool
  resetCmd : Bool
  submitCmd : Bool
  waitCmd : Bool
  deriving DecidableEq

/-- `Buffer<T>`: a device handle plus the host-side element mirror
(`data`). -/
structure TypedBuffer (α : Type) where
  handle : Nat
  data : List α
  deriving DecidableEq

/-- `Frame`: one framebuffer, one command buffer, one fence. -/
structure FrameM where
  framebuffer : Nat
  command_buffer : Nat
  fence : Nat
  deriving DecidableEq

/-- `Image`: image handle, view and memory, owned together. -/
structure ImageM where
  image : Nat
  view : Nat
  memory : Nat
  deriving DecidableEq

/-- The `Renderer` struct (the fields its methods read). -/
structure RendererM where
  frames : List FrameM
  graphics_queue : Nat
  pipeline_layout : Nat
  pipeline : Nat
  render_pass : Nat
  frame_index : Nat
  depth_image : ImageM
  render_area : Nat × Nat
  vertex_buffer : TypedBuffer VertexData
  index_buffer : TypedBuffer Nat
  deriving DecidableEq

/-- `u64::MAX`, the timeout `draw` passes to `wait_for_fences` ("no
timeout"). -/
def u64MAX : Nat := 2 ^ 64 - 1

/-- `Renderer::prepare_frame`: record the frame's command buffer — begin
recording (one-time submit), begin the render pass with clear color opaque
black `(0,0,0,1)`, clear depth `0.0` and clear stencil `0`, bind the
pipeline, bind the vertex buffer at offset 0, bind the index buffer at
offset 0 as 32-bit indices, issue one indexed draw covering the whole index
buffer (`index_count = index_buffer.data.len()`, one instance, zero
offsets), end the render pass, end recording.  Returns the recorded calls
and the first failure of the two fallible calls. -/
def Renderer.prepare_frame (r : RendererM) (f : FrameM) (o : DrawOracle) :
    List DeviceCall × Option DrawError :=
  let cb := f.command_buffer
  let c1 := DeviceCall.beginCommandBuffer cb true
  if o.beginCmd = false then ([c1], some DrawError.beginFailed)
  else
    let body : List DeviceCall :=
      [DeviceCall.cmdBeginRenderPass cb r.render_pass f.framebuffer
        r.render_area (0, 0, 0, 1) 0 0,
       DeviceCall.cmdBindPipeline cb r.pipeline,
       DeviceCall.cmdBindVertexBuffers cb 0 [r.vertex_buffer.handle] [0],
       DeviceCall.cmdBindIndexBuffer cb r.index_buffer.handle 0 IndexType.uint32,
       DeviceCall.cmdDrawIndexed cb r.index_buffer.data.length 1 0 0 0,
       DeviceCall.cmdEndRenderPass cb,
       DeviceCall.endCommandBuffer cb]
    if o.endCmd = false then (c1 :: body, some DrawError.endFailed)
    else (c1 :: body, none)

/-- The effect part of `Renderer::draw` after the counter increment: index
into `frames` (panicking when out of bounds), record via `prepare_frame`,
then reset the frame's fence, submit the command buffer to the graphics
queue with that fence, and wait on the fence with timeout `u64::MAX`. -/
def Renderer.drawEffects (o : DrawOracle) (r : RendererM) (frame_index : Nat) :
    List DeviceCall × Option DrawError :=
  match r.frames[frame_index]? with
  | none => ([], some DrawError.indexOutOfBounds)
  | some frame =>
    let prep := Renderer.prepare_frame r frame o
    match prep.2 with
    | some e => (prep.1, some e)
    | none =>
      let c9 := DeviceCall.resetFences [frame.fence]
      if o.resetCmd = false then (prep.1 ++ [c9], some DrawError.resetFailed)
      else
        let c10 := DeviceCall.queueSubmit r.graphics_queue
          [frame.command_buffer] frame.fence
        if o.submitCmd = false then
          (prep.1 ++ [c9, c10], some DrawError.submitFailed)
        else
          let c11 := DeviceCall.waitForFences [frame.fence] true u64MAX
          if o.waitCmd = false then
            (prep.1 ++ [c9, c10, c11], some DrawError.waitFailed)
          else (prep.1 ++ [c9, c10, c11], none)

/-- `Renderer::draw(frame_index)`: increment the diagnostic frame counter
(`self.frame_index += 1`, the only state mutation), then perform the
recording and submission effects.  Returns the renderer state, the device
calls issued, and the error if any step failed. -/
def Renderer.draw (o : DrawOracle) (r : RendererM) (frame_index : Nat) :
    RendererM × List DeviceCall × Option DrawError :=
  let r' := { r with frame_index := r.frame_index + 1 }
  let eff := Renderer.drawEffects o r' frame_index
  (r', eff.1, eff.2)

/-! ## Claim C5 -/

/-- Claim C5 (confirmed): every call to `Renderer::draw(i)` — including
those that fail — increments the diagnostic frame counter by exactly 1 and
leaves the contents of the vertex buffer and the index buffer unchanged. -/
theorem C5_draw_increments_and_preserves_buffers
    (o : DrawOracle) (r : RendererM) (i : Nat) :
    (Renderer.draw o r i).1.frame_index = r.frame_index + 1 ∧
    (Renderer.draw o r i).1.vertex_buffer = r.vertex_buffer ∧
    (Renderer.draw o r i).1.index_buffer = r.index_buffer :=
  ⟨rfl, rfl, rfl⟩

/-! ## Claim C6 -/

/-- Claim C6 (confirmed): when `Renderer::draw(frame_index)` succeeds, the
device calls it issued are exactly: begin recording the frame's command
buffer, begin the render pass clearing color to opaque black and depth to
`0.0`, bind the pipeline, bind the vertex buffer at offset 0, bind the index
buffer at offset 0 as 32-bit indices, one indexed draw covering the whole
index buffer, end render pass, end recording; then reset the frame's fence,
submit the command buffer to the graphics queue with that fence, and block
on the fence (`wait_all`, timeout `u64::MAX`, i.e. no timeout). -/
theorem C6_draw_call_sequence (o : DrawOracle) (r : RendererM) (i : Nat)
    (f : FrameM) (hf : r.frames[i]? = some f)
    (hok : (Renderer.draw o r i).2.2 = none) :
    (Renderer.draw o r i).2.1 =
      [DeviceCall.beginCommandBuffer f.command_buffer true,
       DeviceCall.cmdBeginRenderPass f.command_buffer r.render_pass
         f.framebuffer r.render_area (0, 0, 0, 1) 0 0,
       DeviceCall.cmdBindPipeline f.command_buffer r.pipeline,
       DeviceCall.cmdBindVertexBuffers f.command_buffer 0
         [r.vertex_buffer.handle] [0],
       DeviceCall.cmdBindIndexBuffer f.command_buffer r.index_buffer.handle 0
         IndexType.uint32,
       DeviceCall.cmdDrawIndexed f.command_buffer r.index_buffer.data.length
         1 0 0 0,
       DeviceCall.cmdEndRenderPass f.command_buffer,
       DeviceCall.endCommandBuffer f.command_buffer,
       DeviceCall.resetFences [f.fence],
       DeviceCall.queueSubmit r.graphics_queue [f.command_buffer] f.fence,
       DeviceCall.waitForFences [f.fence] true u64MAX] := by
  cases hb : o.beginCmd <;> cases he : o.endCmd <;> cases hrs : o.resetCmd <;>
    cases hs : o.submitCmd <;> cases hw : o.waitCmd <;>
    simp [Renderer.draw, Renderer.drawEffects, Renderer.prepare_frame, hf,
      hb, he, hrs, hs, hw] at hok ⊢

/-- The all-success draw oracle. -/
def drawOracleOk : DrawOracle := ⟨true, true, true, true, true⟩

def c6Frame : FrameM := ⟨100, 200, 300⟩

def c6Renderer : RendererM :=
  { frames := [c6Frame]
    graphics_queue := 1
    pipeline_layout := 2
    pipeline := 3
    render_pass := 4
    frame_index := 0
    depth_image := ⟨5, 6, 7⟩
    render_area := (800, 600)
    vertex_buffer := ⟨8, [0, 1, 2, 3]⟩
    index_buffer := ⟨9, [0, 1, 2]⟩ }

/-- Witness for C6 on a concrete renderer with an all-success device. -/
theorem C6_draw_call_sequence_witness :
    (c6Renderer.frames[0]? = some c6Frame) ∧
    ((Renderer.draw drawOracleOk c6Renderer 0).2.2 = none) ∧
    (Renderer.draw drawOracleOk c6Renderer 0).2.1 =
      [DeviceCall.beginCommandBuffer 200 true,
       DeviceCall.cmdBeginRenderPass 200 4 100 (800, 600) (0, 0, 0, 1) 0 0,
       DeviceCall.cmdBindPipeline 200 3,
       DeviceCall.cmdBindVertexBuffers 200 0 [8] [0],
       DeviceCall.cmdBindIndexBuffer 200 9 0 IndexType.uint32,
       DeviceCall.cmdDrawIndexed 200 3 1 0 0 0,
       DeviceCall.cmdEndRenderPass 200,
       DeviceCall.endCommandBuffer 200,
       DeviceCall.resetFences [300],
       DeviceCall.queueSubmit 1 [200] 300,
       DeviceCall.waitForFences [300] true u64MAX] :=
  ⟨rfl, rfl, C6_draw_call_sequence drawOracleOk c6Renderer 0 c6Frame rfl rfl⟩

/-! ## Claim C10 -/

/-- Claim C10 (confirmed): `Renderer::draw` increments the frame counter
before any fallible operation, so whenever it returns an error — recording,
fence reset, submission, the fence wait, or the frame-indexing panic — the
counter has still been incremented by exactly 1; the update is never rolled
back. -/
theorem C10_counter_survives_draw_errors (o : DrawOracle) (r : RendererM)
    (i : Nat) (e : DrawError)
    (_herr : (Renderer.draw o r i).2.2 = some e) :
    (Renderer.draw o r i).1.frame_index = r.frame_index + 1 := rfl

/-- A draw oracle whose queue submission fails. -/
def drawOracleSubmitFail : DrawOracle := ⟨true, true, true, false, true⟩

def c10Frame : FrameM := ⟨101, 201, 301⟩

def c10Renderer : RendererM :=
  { frames := [c10Frame]
    graphics_queue := 1
    pipeline_layout := 2
    pipeline := 3
    render_pass := 4
    frame_index := 41
    depth_image := ⟨5, 6, 7⟩
    render_area := (800, 600)
    vertex_buffer := ⟨8, [0]⟩
    index_buffer := ⟨9, [0]⟩ }

/-- Witness for C10: a failing submission still leaves the counter
incremented. -/
theorem C10_counter_survives_draw_errors_witness :
    ((Renderer.draw drawOracleSubmitFail c10Renderer 0).2.2 =
      some DrawError.submitFailed) ∧
    (Renderer.draw drawOracleSubmitFail c10Renderer 0).1.frame_index =
      c10Renderer.frame_index + 1 :=
  ⟨rfl, C10_counter_survives_draw_errors drawOracleSubmitFail c10Renderer 0
    DrawError.submitFailed rfl⟩

/-! ## Renderer destruction (Claim C9) -/

/-- One resource destruction step of `impl Drop for Renderer`. -/
inductive DestroyEvent where
  | queueWaitIdle (queue : Nat)
  | destroyImage (img : ImageM)
  | destroyBuffer (handle : Nat)
  | destroyFrame (f : FrameM)
  | destroyPipelineLayout (handle : Nat)
  | destroyRenderPass (handle : Nat)
  | destroyPipeline (handle : Nat)
  deriving DecidableEq

/-- Modelled from the spec: `Image::destroy` (in `image.rs`, outside the
sources) frees the image handle, its view and its memory together, never
partially — one atomic event. -/
def ImageM.destroy (img : ImageM) : List DestroyEvent :=
  [DestroyEvent.destroyImage img]

/-- Modelled from the spec: `Buffer::destroy` (in `buffer.rs`, outside the
sources) releases the buffer's device memory exactly once — one event
carrying its handle. -/
def TypedBuffer.destroy {α : Type} (b : TypedBuffer α) : List DestroyEvent :=
  [DestroyEvent.destroyBuffer b.handle]

/-- Modelled from the spec: `Frame::destroy` (in `frame.rs`, outside the
sources) frees the frame's framebuffer, command buffer and fence — one
atomic event. -/
def FrameM.destroy (f : FrameM) : List DestroyEvent :=
  [DestroyEvent.destroyFrame f]

/-- `impl Drop for Renderer`: wait for the graphics queue to go idle, then
destroy the depth image, the vertex buffer, the index buffer, every frame in
order, the pipeline layout, the render pass and the pipeline. -/
def Renderer.drop (r : RendererM) : List DestroyEvent :=
  [DestroyEvent.queueWaitIdle r.graphics_queue]
    ++ r.depth_image.destroy
    ++ r.vertex_buffer.destroy
    ++ r.index_buffer.destroy
    ++ (r.frames.map FrameM.destroy).flatten
    ++ [DestroyEvent.destroyPipelineLayout r.pipeline_layout]
    ++ [DestroyEvent.destroyRenderPass r.render_pass]
    ++ [DestroyEvent.destroyPipeline r.pipeline]

theorem frames_destroy_flatten (fs : List FrameM) :
    (fs.map FrameM.destroy).flatten = fs.map DestroyEvent.destroyFrame := by
  induction fs with
  | nil => rfl
  | cons f rest ih => simp [FrameM.destroy, ih]

theorem destroyFrame_injective : Function.Injective DestroyEvent.destroyFrame := by
  intro a b h
  injection h

theorem count_destroyFrame_map_eq_zero (fs : List FrameM) (ev : DestroyEvent)
    (h : ∀ f, ev ≠ DestroyEvent.destroyFrame f) :
    (fs.map DestroyEvent.destroyFrame).count ev = 0 := by
  rw [List.count_eq_zero]
  intro hc
  obtain ⟨f, _, hf⟩ := List.mem_map.mp hc
  exact h f hf.symm

/-- Claim C9 (confirmed): destroying a `Renderer` first waits for the
graphics queue to go idle, then destroys its owned resources in exactly this
order — depth image, vertex buffer, index buffer, every frame, pipeline
layout, render pass, pipeline — and (when the two mesh buffers are distinct
and the frame list has no duplicates) each exactly once. -/
theorem C9_drop_destroys_in_order_once (r : RendererM)
    (hbuf : r.vertex_buffer.handle ≠ r.index_buffer.handle)
    (hframes : r.frames.Nodup) :
    (Renderer.drop r =
      [DestroyEvent.queueWaitIdle r.graphics_queue,
       DestroyEvent.destroyImage r.depth_image,
       DestroyEvent.destroyBuffer r.vertex_buffer.handle,
       DestroyEvent.destroyBuffer r.index_buffer.handle]
      ++ r.frames.map DestroyEvent.destroyFrame
      ++ [DestroyEvent.destroyPipelineLayout r.pipeline_layout,
          DestroyEvent.destroyRenderPass r.render_pass,
          DestroyEvent.destroyPipeline r.pipeline]) ∧
    (Renderer.drop r).count (DestroyEvent.destroyImage r.depth_image) = 1 ∧
    (Renderer.drop r).count
      (DestroyEvent.destroyBuffer r.vertex_buffer.handle) = 1 ∧
    (Renderer.drop r).count
      (DestroyEvent.destroyBuffer r.index_buffer.handle) = 1 ∧
    (∀ f ∈ r.frames,
      (Renderer.drop r).count (DestroyEvent.destroyFrame f) = 1) ∧
    (Renderer.drop r).count
      (DestroyEvent.destroyPipelineLayout r.pipeline_layout) = 1 ∧
    (Renderer.drop r).count
      (DestroyEvent.destroyRenderPass r.render_pass) = 1 ∧
    (Renderer.drop r).count (DestroyEvent.destroyPipeline r.pipeline) = 1 := by
  have hbuf' : r.index_buffer.handle ≠ r.vertex_buffer.handle := hbuf.symm
  have hord : Renderer.drop r =
      [DestroyEvent.queueWaitIdle r.graphics_queue,
       DestroyEvent.destroyImage r.depth_image,
       DestroyEvent.destroyBuffer r.vertex_buffer.handle,
       DestroyEvent.destroyBuffer r.index_buffer.handle]
      ++ r.frames.map DestroyEvent.destroyFrame
      ++ [DestroyEvent.destroyPipelineLayout r.pipeline_layout,
          DestroyEvent.destroyRenderPass r.render_pass,
          DestroyEvent.destroyPipeline r.pipeline] := by
    simp [Renderer.drop, ImageM.destroy, TypedBuffer.destroy,
      frames_destroy_flatten]
  refine ⟨hord, ?_, ?_, ?_, ?_, ?_, ?_, ?_⟩
  · rw [hord]
    have h0 : (r.frames.map DestroyEvent.destroyFrame).count
        (DestroyEvent.destroyImage r.depth_image) = 0 :=
      count_destroyFrame_map_eq_zero _ _ (fun f h => by simp at h)
    simp [List.count_append, List.count_cons, h0]
  · rw [hord]
    have h0 : (r.frames.map DestroyEvent.destroyFrame).count
        (DestroyEvent.destroyBuffer r.vertex_buffer.handle) = 0 :=
      count_destroyFrame_map_eq_zero _ _ (fun f h => by simp at h)
    simp [List.count_append, List.count_cons, h0, hbuf, hbuf']
  · rw [hord]
    have h0 : (r.frames.map DestroyEvent.destroyFrame).count
        (DestroyEvent.destroyBuffer r.index_buffer.handle) = 0 :=
      count_destroyFrame_map_eq_zero _ _ (fun f h => by simp at h)
    simp [List.count_append, List.count_cons, h0, hbuf, hbuf']
  · intro f hf
    rw [hord]
    have h1 : (r.frames.map DestroyEvent.destroyFrame).count
        (DestroyEvent.destroyFrame f) = 1 := by
      rw [List.count_map_of_injective _ _ destroyFrame_injective]
      exact List.count_eq_one_of_mem hframes hf
    simp [List.count_append, List.count_cons, h1]
  · rw [hord]
    have h0 : (r.frames.map DestroyEvent.destroyFrame).count
        (DestroyEvent.destroyPipelineLayout r.pipeline_layout) = 0 :=
      count_destroyFrame_map_eq_zero _ _ (fun f h => by simp at h)
    simp [List.count_append, List.count_cons, h0]
  · rw [hord]
    have h0 : (r.frames.map DestroyEvent.destroyFrame).count
        (DestroyEvent.destroyRenderPass r.render_pass) = 0 :=
      count_destroyFrame_map_eq_zero _ _ (fun f h => by simp at h)
    simp [List.count_append, List.count_cons, h0]
  · rw [hord]
    have h0 : (r.frames.map DestroyEvent.destroyFrame).count
        (DestroyEvent.destroyPipeline r.pipeline) = 0 :=
      count_destroyFrame_map_eq_zero _ _ (fun f h => by simp at h)
    simp [List.count_append, List.count_cons, h0]

/-- Witness for C9 on a concrete renderer. -/
theorem C9_drop_destroys_in_order_once_witness :
    (c6Renderer.vertex_buffer.handle ≠ c6Renderer.index_buffer.handle) ∧
    c6Renderer.frames.Nodup ∧
    Renderer.drop c6Renderer =
      [DestroyEvent.queueWaitIdle 1,
       DestroyEvent.destroyImage ⟨5, 6, 7⟩,
       DestroyEvent.destroyBuffer 8,
       DestroyEvent.destroyBuffer 9,
       DestroyEvent.destroyFrame c6Frame,
       DestroyEvent.destroyPipelineLayout 2,
       DestroyEvent.destroyRenderPass 4,
       DestroyEvent.destroyPipeline 3] :=
  ⟨by decide, by decide,
    (C9_drop_destroys_in_order_once c6Renderer (by decide) (by decide)).1⟩

/-! ## Renderer construction

Embedding of `Renderer::new`, `create_frames` and `create_pipeline`.  The
driver and the resource wrappers living outside the sources (`Swapchain`,
`Image`, `Frame`, `Buffer`, `VulkanContext`) are modelled as an oracle
giving each creation step's result; the control flow below is the one of
`renderer.rs`.
-/

/-- `HothamError` (`hotham_error.rs`). -/
inductive HothamError where
  | openXRError
  | emptyListError
  | unsupportedVersionError
  | invalidFormatError
  | otherError
  deriving DecidableEq

/-- `Swapchain`: the per-frame target images and the fixed resolution. -/
structure SwapchainM where
  images : List Nat
  resolution : Nat × Nat
  deriving DecidableEq

/-- Results of the driver calls `create_pipeline` makes, in source order. -/
structure PipelineOracle where
  readVertexSpv : Except HothamError (List Nat)
  createVertexModule : Except HothamError Nat
  readFragmentSpv : Except HothamError (List Nat)
  createFragmentModule : Except HothamError Nat
  createGraphicsPipelines : Except HothamError (List Nat)

/-- Results of the creation steps `Renderer::new` performs. -/
structure InitOracle where
  swapchainResult : Except HothamError SwapchainM
  layoutResult : Except HothamError Nat
  renderPassResult : Except HothamError Nat
  pipelineO : PipelineOracle
  createDepthImage : Except HothamError ImageM
  createImageView : Nat → Except HothamError Nat
  frameResult : Nat → Except HothamError FrameM
  vertexBufferResult : Except HothamError (TypedBuffer VertexData)
  indexBufferResult : Except HothamError (TypedBuffer Nat)
  graphicsQueue : Nat

/-- Did the call succeed? -/
def exceptOk {ε α : Type} : Except ε α → Bool
  | Except.ok _ => true
  | Except.error _ => false

/-- `create_pipeline`: load both shaders, create both modules, call
`create_graphics_pipelines`, then `pipelines.pop().ok_or(HothamError::EmptyListError)`
— the last pipeline of the returned vector, or `EmptyListError` when the
driver returned zero pipeline objects. -/
def create_pipeline (o : PipelineOracle) : Except HothamError Nat :=
  match o.readVertexSpv with
  | Except.error e => Except.error e
  | Except.ok _vertex_code =>
    match o.createVertexModule with
    | Except.error e => Except.error e
    | Except.ok _vertex_shader =>
      match o.readFragmentSpv with
      | Except.error e => Except.error e
      | Except.ok _fragment_code =>
        match o.createFragmentModule with
        | Except.error e => Except.error e
        | Except.ok _fragment_shader =>
          match o.createGraphicsPipelines with
          | Except.error e => Except.error e
          | Except.ok pipelines =>
            match pipelines.getLast? with
            | none => Except.error HothamError.emptyListError
            | some p => Except.ok p

/-- `create_frames`: for every swapchain image, create a color image view —
`flat_map` silently DROPS an image whose view creation fails — then build a
`Frame` from each created view, `collect::<Result<Vec<Frame>>>` aborting on
the first frame error. -/
def create_frames (o : InitOracle) : List Nat → Except HothamError (List FrameM)
  | [] => Except.ok []
  | img :: rest =>
    match o.createImageView img with
    | Except.error _ => create_frames o rest
    | Except.ok view =>
      match o.frameResult view with
      | Except.error e => Except.error e
      | Except.ok f =>
        match create_frames o rest with
        | Except.error e => Except.error e
        | Except.ok fs => Except.ok (f :: fs)

/-- `Renderer::new`: build the swapchain, the pipeline layout, the render
pass, the pipeline, the depth image, the frames and the two mesh buffers, in
source order, propagating the first error; on success the renderer starts
with `frame_index = 0`. -/
def Renderer.new (o : InitOracle) : Except HothamError RendererM :=
  match o.swapchainResult with
  | Except.error e => Except.error e
  | Except.ok swapchain =>
    match o.layoutResult with
    | Except.error e => Except.error e
    | Except.ok pipeline_layout =>
      match o.renderPassResult with
      | Except.error e => Except.error e
      | Except.ok render_pass =>
        match create_pipeline o.pipelineO with
        | Except.error e => Except.error e
        | Except.ok pipeline =>
          match o.createDepthImage with
          | Except.error e => Except.error e
          | Except.ok depth_image =>
            match create_frames o swapchain.images with
            | Except.error e => Except.error e
            | Except.ok frames =>
              match o.vertexBufferResult with
              | Except.error e => Except.error e
              | Except.ok vertex_buffer =>
                match o.indexBufferResult with
                | Except.error e => Except.error e
                | Except.ok index_buffer =>
                  Except.ok
                    { frames := frames
                      graphics_queue := o.graphicsQueue
                      pipeline_layout := pipeline_layout
                      pipeline := pipeline
                      render_pass := render_pass
                      frame_index := 0
                      depth_image := depth_image
                      render_area := swapchain.resolution
                      vertex_buffer := vertex_buffer
                      index_buffer := index_buffer }

/-! ## Claim C7 -/

theorem create_frames_length (o : InitOracle) :
    ∀ (imgs : List Nat) (fs : List FrameM),
      create_frames o imgs = Except.ok fs →
      fs.length =
        (imgs.filter (fun img => exceptOk (o.createImageView img))).length := by
  intro imgs
  induction imgs with
  | nil =>
    intro fs h
    simp only [create_frames, Except.ok.injEq] at h
    subst h
    rfl
  | cons img rest ih =>
    intro fs h
    cases hv : o.createImageView img with
    | error e =>
      simp only [create_frames, hv] at h
      simpa [List.filter_cons, exceptOk, hv] using ih fs h
    | ok view =>
      cases hf : o.frameResult view with
      | error e => simp [create_frames, hv, hf] at h
      | ok f =>
        cases hrest : create_frames o rest with
        | error e => simp [create_frames, hv, hf, hrest] at h
        | ok fs' =>
          simp only [create_frames, hv, hf, hrest, Except.ok.injEq] at h
          subst h
          simpa [List.filter_cons, exceptOk, hv] using ih fs' hrest

def c7PipelineOk : PipelineOracle :=
  ⟨Except.ok [0], Except.ok 1, Except.ok [0], Except.ok 2, Except.ok [3]⟩

/-- An oracle whose driver rejects the image view of the second of three
swapchain images; everything else succeeds. -/
def c7Oracle : InitOracle :=
  { swapchainResult := Except.ok ⟨[10, 11, 12], (800, 600)⟩
    layoutResult := Except.ok 1
    renderPassResult := Except.ok 2
    pipelineO := c7PipelineOk
    createDepthImage := Except.ok ⟨5, 6, 7⟩
    createImageView := fun img =>
      if img = 11 then Except.error HothamError.invalidFormatError
      else Except.ok (img * 10)
    frameResult := fun view => Except.ok ⟨view, view + 1, view + 2⟩
    vertexBufferResult := Except.ok ⟨8, [0]⟩
    indexBufferResult := Except.ok ⟨9, [0]⟩
    graphicsQueue := 0 }

/-- Counterexample to claim C7 as stated: against a swapchain of 3 images
whose second image-view creation the driver rejects, `Renderer::new` still
SUCCEEDS (the `flat_map` over `Result` silently drops the failure) but owns
only 2 frames, not 3. -/
theorem C7_counterexample :
    (Renderer.new c7Oracle).map (fun r => r.frames.length) = Except.ok 2 ∧
    (c7Oracle.swapchainResult).map (fun s => s.images.length) = Except.ok 3 ∧
    (2 : Nat) ≠ 3 :=
  ⟨rfl, rfl, by decide⟩

/-- Claim C7 as amended: a successfully constructed renderer owns exactly
one `Frame` per swapchain image WHOSE COLOR IMAGE VIEW WAS SUCCESSFULLY
CREATED (a failed view creation is silently dropped by the `flat_map` over
`Result`, shrinking the frame list without failing construction).  When
every view creation succeeds — the non-failing-driver case — this is one
frame per swapchain image, e.g. exactly 3 for a swapchain of length 3. -/
theorem C7_frames_per_successful_view (o : InitOracle) (sw : SwapchainM)
    (r : RendererM)
    (hsw : o.swapchainResult = Except.ok sw)
    (hr : Renderer.new o = Except.ok r) :
    r.frames.length =
      (sw.images.filter (fun img => exceptOk (o.createImageView img))).length := by
  simp only [Renderer.new, hsw] at hr
  cases hl : o.layoutResult with
  | error e => simp [hl] at hr
  | ok layout =>
    cases hrp : o.renderPassResult with
    | error e => simp [hl, hrp] at hr
    | ok render_pass =>
      cases hp : create_pipeline o.pipelineO with
      | error e => simp [hl, hrp, hp] at hr
      | ok pipeline =>
        cases hd : o.createDepthImage with
        | error e => simp [hl, hrp, hp, hd] at hr
        | ok depth =>
          cases hfr : create_frames o sw.images with
          | error e => simp [hl, hrp, hp, hd, hfr] at hr
          | ok fs =>
            cases hvb : o.vertexBufferResult with
            | error e => simp [hl, hrp, hp, hd, hfr, hvb] at hr
            | ok vb =>
              cases hib : o.indexBufferResult with
              | error e => simp [hl, hrp, hp, hd, hfr, hvb, hib] at hr
              | ok ib =>
                simp only [hl, hrp, hp, hd, hfr, hvb, hib,
                  Except.ok.injEq] at hr
                subst hr
                exact create_frames_length o sw.images fs hfr

/-- An all-success oracle over a swapchain of length 3. -/
def c7wOracle : InitOracle :=
  { swapchainResult := Except.ok ⟨[10, 11, 12], (800, 600)⟩
    layoutResult := Except.ok 1
    renderPassResult := Except.ok 2
    pipelineO := c7PipelineOk
    createDepthImage := Except.ok ⟨5, 6, 7⟩
    createImageView := fun img => Except.ok (img * 10)
    frameResult := fun view => Except.ok ⟨view, view + 1, view + 2⟩
    vertexBufferResult := Except.ok ⟨8, [0]⟩
    indexBufferResult := Except.ok ⟨9, [0]⟩
    graphicsQueue := 0 }

def c7wRenderer : RendererM :=
  { frames := [⟨100, 101, 102⟩, ⟨110, 111, 112⟩, ⟨120, 121, 122⟩]
    graphics_queue := 0
    pipeline_layout := 1
    pipeline := 3
    render_pass := 2
    frame_index := 0
    depth_image := ⟨5, 6, 7⟩
    render_area := (800, 600)
    vertex_buffer := ⟨8, [0]⟩
    index_buffer := ⟨9, [0]⟩ }

/-- Witness for the amended C7: with a non-failing driver and a swapchain of
length 3, construction succeeds owning exactly 3 frames. -/
theorem C7_frames_per_successful_view_witness :
    (c7wOracle.swapchainResult = Except.ok ⟨[10, 11, 12], (800, 600)⟩) ∧
    (Renderer.new c7wOracle = Except.ok c7wRenderer) ∧
    c7wRenderer.frames.length =
      (([10, 11, 12] : List Nat).filter
        (fun img => exceptOk (c7wOracle.createImageView img))).length :=
  ⟨rfl, rfl,
    C7_frames_per_successful_view c7wOracle ⟨[10, 11, 12], (800, 600)⟩
      c7wRenderer rfl rfl⟩

/-! ## Claim C8 -/

/-- Claim C8 (confirmed): when the driver's `create_graphics_pipelines`
returns zero pipeline objects while the earlier construction steps succeed,
`pipelines.pop()` yields nothing, `create_pipeline` returns
`HothamError::EmptyListError` (the spec's "EmptyResultError"), and
`Renderer::new` propagates it: construction fails and never succeeds without
a pipeline. -/
theorem C8_zero_pipelines_fail_empty (o : InitOracle) (sw : SwapchainM)
    (layout render_pass : Nat) (vcode fcode : List Nat) (vmod fmod : Nat)
    (hsw : o.swapchainResult = Except.ok sw)
    (hl : o.layoutResult = Except.ok layout)
    (hrp : o.renderPassResult = Except.ok render_pass)
    (hv : o.pipelineO.readVertexSpv = Except.ok vcode)
    (hvm : o.pipelineO.createVertexModule = Except.ok vmod)
    (hf : o.pipelineO.readFragmentSpv = Except.ok fcode)
    (hfm : o.pipelineO.createFragmentModule = Except.ok fmod)
    (hp : o.pipelineO.createGraphicsPipelines = Except.ok []) :
    Renderer.new o = Except.error HothamError.emptyListError := by
  simp [Renderer.new, create_pipeline, hsw, hl, hrp, hv, hvm, hf, hfm, hp]

/-- An oracle whose driver returns zero pipeline objects. -/
def c8Oracle : InitOracle :=
  { swapchainResult := Except.ok ⟨[10], (800, 600)⟩
    layoutResult := Except.ok 1
    renderPassResult := Except.ok 2
    pipelineO := ⟨Except.ok [0], Except.ok 1, Except.ok [0], Except.ok 2,
      Except.ok []⟩
    createDepthImage := Except.ok ⟨5, 6, 7⟩
    createImageView := fun img => Except.ok (img * 10)
    frameResult := fun view => Except.ok ⟨view, view + 1, view + 2⟩
    vertexBufferResult := Except.ok ⟨8, [0]⟩
    indexBufferResult := Except.ok ⟨9, [0]⟩
    graphicsQueue := 0 }

/-- Witness for C8: zero pipelines from the driver make construction fail
with the empty-list error. -/
theorem C8_zero_pipelines_fail_empty_witness :
    (c8Oracle.pipelineO.createGraphicsPipelines = Except.ok []) ∧
    Renderer.new c8Oracle = Except.error HothamError.emptyListError :=
  ⟨rfl, C8_zero_pipelines_fail_empty c8Oracle ⟨[10], (800, 600)⟩ 1 2 [0] [0]
    1 2 rfl rfl rfl rfl rfl rfl rfl rfl⟩
